import Mathlib

/-!
Verification of the splat-to-mesh conversion service
(`app.py`, `converter.py`, `gcs_handler.py`).

The repository is orchestration glue: an HTTP handler that downloads a PLY
file, invokes the PDAL command-line tool through a serialized pipeline
descriptor, uploads the result to Google Cloud Storage, and returns a public
URL.  We embed the Python control flow shallowly: external outcomes (the
HTTP fetch, the descriptor write, the subprocess run, the upload) are
supplied by an environment record, the filesystem is the list of currently
existing paths, and exceptions are an explicit sum type mirroring the
distinction the handler's `except` clauses draw
(`subprocess.CalledProcessError` versus every other `Exception`).
-/

namespace SplatToMesh

/-- The filesystem, modelled as the list of currently existing paths. -/
abbrev Fs : Type := List String

/-- Creating a file or directory at a path (`open(..., 'wb')`, `mkdtemp`,
`NamedTemporaryFile`): the path now exists. -/
def createFile (fs : Fs) (p : String) : Fs := p :: fs

/-- `os.unlink(p)`: the path no longer exists. -/
def deletePath (fs : Fs) (p : String) : Fs :=
  fs.filter (fun q => !(q == p))

/-- Whether path `p` lies strictly under directory `dir` (its name starts
with `dir ++ "/"`). -/
def isUnder (dir p : String) : Bool :=
  (dir ++ "/").data.isPrefixOf p.data

/-- `shutil.rmtree(dir)`: the directory and everything under it is removed. -/
def rmtree (fs : Fs) (dir : String) : Fs :=
  fs.filter (fun q => !(q == dir || isUnder dir q))

/-- A Python exception as the request handler distinguishes them:
`subprocess.CalledProcessError` (with the command, return code, stdout and
stderr it carries) versus any other `Exception` (carrying only `str(e)`). -/
inductive PyExc where
  | calledProcessError (cmd : List String) (returncode : Nat) (stdout stderr : String)
  | generic (msg : String)
deriving DecidableEq

/-- Python `repr` of a string that contains no quote or escape characters
(the only case arising here: it is applied to the fixed words `pdal`,
`pipeline` and a temp-file path). -/
def pyReprStr (s : String) : String := "\x27" ++ s ++ "\x27"

/-- Python `str` of a list of strings, e.g. `['pdal', 'pipeline', '/tmp/x.json']`. -/
def pyReprList (xs : List String) : String :=
  "[" ++ String.intercalate ", " (xs.map pyReprStr) ++ "]"

/-- `str(subprocess.CalledProcessError(rc, cmd))` for a non-negative return
code: `Command '<cmd>' returned non-zero exit status <rc>.` -/
def calledProcessErrorStr (cmd : List String) (rc : Nat) : String :=
  "Command \x27" ++ pyReprList cmd ++ "\x27 returned non-zero exit status "
    ++ toString rc ++ "."

/-! ## gcs_handler.py -/

/-- `get_public_url` (gcs_handler.py:36-47): the public URL of a blob,
a fixed template over the bucket and blob name, pure and total. -/
def get_public_url (bucket_name blob_name : String) : String :=
  "https://storage.googleapis.com/" ++ bucket_name ++ "/" ++ blob_name

/-- `upload_to_gcs` (gcs_handler.py:9-33).  The storage client's behaviour
is an environment outcome: `Except.ok` when construction, upload and
make-public all succeed, `Except.error m` carrying `str(e)` of whatever the
client raised.  The function catches every exception and re-raises a plain
`Exception` with message `GCS upload failed: <cause>`. -/
def upload_to_gcs (outcome : Except String Unit) : Except PyExc Unit :=
  match outcome with
  | .ok _ => .ok ()
  | .error m => .error (.generic ("GCS upload failed: " ++ m))

/-! ## converter.py -/

/-- `download_file` (converter.py:11-26).  The HTTP response is an
environment outcome: `Except.error m` when the GET fails or
`raise_for_status` raises (carrying `str` of the requests exception),
`Except.ok` when the body streams successfully.  `raise_for_status` runs
before `open(output_path, 'wb')`, so on failure no file is created. -/
def download_file (outcome : Except String Unit) (fs : Fs) (output_path : String) :
    Except PyExc Unit × Fs :=
  match outcome with
  | .error m => (.error (.generic m), fs)
  | .ok _ => (.ok (), createFile fs output_path)

/-- One stage of the PDAL pipeline dictionary: its `type` and, when present,
its `filename` parameter. -/
structure PipelineStage where
  type : String
  filename : Option String
deriving DecidableEq

/-- `pipeline_definition` (converter.py:47-61): the value of the
`"pipeline"` key — read PLY, Delaunay triangulation, write glTF. -/
def pipeline_definition (input_ply_path output_glb_path : String) : List PipelineStage :=
  [ { type := "readers.ply", filename := some input_ply_path },
    { type := "filters.delaunay", filename := none },
    { type := "writers.gltf", filename := some output_glb_path } ]

/-- Outcome of serializing the pipeline to the `NamedTemporaryFile`
(converter.py:65-67): success (the file exists and `pipeline_file` is
bound), failure before the file was created, or failure after creation but
before `pipeline_file = f.name` ran (then the file leaks: the `finally`
guard `'pipeline_file' in locals()` is false). -/
inductive WriteOutcome where
  | ok
  | failBefore (msg : String)
  | failAfterCreate (msg : String)
deriving DecidableEq

/-- Outcome of `subprocess.run(["pdal", "pipeline", pipeline_file], ...)`:
either the process completed with a return code, stdout and stderr, or the
invocation itself raised an OS error (e.g. the tool is not installed). -/
inductive RunOutcome where
  | completed (returncode : Nat) (stdout stderr : String)
  | oserror (msg : String)
deriving DecidableEq

/-- Environment of one `convert_ply_to_glb` call: the name the temp-file
machinery picks for the descriptor, how its write goes, how the subprocess
goes, and whether the tool left a file at the output path. -/
structure ConvEnv where
  write : WriteOutcome
  pipelineFile : String
  run : RunOutcome
  outputWritten : Bool
deriving DecidableEq

/-- Result of a `convert_ply_to_glb` call: the raised exception or unit,
the filesystem after the call, the list of paths the call created, and the
pipeline dictionary the call built (converter.py:47-61 runs before the
`try`, so it is built on every invocation). -/
structure ConvOut where
  result : Except PyExc Unit
  fs : Fs
  writes : List String
  descriptor : List PipelineStage

/-- `convert_ply_to_glb` (converter.py:29-93).  Writes the pipeline
descriptor to a temp file, runs `pdal pipeline <file>` with `check=True`,
and in `finally` unlinks the descriptor when `pipeline_file` was bound and
the file exists.  A `CalledProcessError` (non-zero exit) is caught and
re-raised as `Exception(f"PDAL conversion failed: {e}")` — `str(e)` being
the command and exit status, not the captured stderr; any other exception
is re-raised the same way.  The output file is created by the tool while it
runs, independently of whether the code checks for it (it does not). -/
def convert_ply_to_glb (env : ConvEnv) (fs : Fs)
    (input_ply_path output_glb_path : String) : ConvOut :=
  let pd := pipeline_definition input_ply_path output_glb_path
  match env.write with
  | .failBefore m =>
      { result := .error (.generic ("PDAL conversion failed: " ++ m)),
        fs := fs, writes := [], descriptor := pd }
  | .failAfterCreate m =>
      { result := .error (.generic ("PDAL conversion failed: " ++ m)),
        fs := createFile fs env.pipelineFile, writes := [env.pipelineFile],
        descriptor := pd }
  | .ok =>
      let fs1 := createFile fs env.pipelineFile
      match env.run with
      | .oserror m =>
          { result := .error (.generic ("PDAL conversion failed: " ++ m)),
            fs := deletePath fs1 env.pipelineFile, writes := [env.pipelineFile],
            descriptor := pd }
      | .completed rc _ _ =>
          let fs2 := if env.outputWritten then createFile fs1 output_glb_path else fs1
          let writes2 :=
            if env.outputWritten then [env.pipelineFile, output_glb_path]
            else [env.pipelineFile]
          if rc = 0 then
            { result := .ok (), fs := deletePath fs2 env.pipelineFile,
              writes := writes2, descriptor := pd }
          else
            { result := .error (.generic ("PDAL conversion failed: "
                ++ calledProcessErrorStr ["pdal", "pipeline", env.pipelineFile] rc)),
              fs := deletePath fs2 env.pipelineFile, writes := writes2,
              descriptor := pd }

/-! ## app.py -/

/-- `GCS_BUCKET` (app.py:19). -/
def GCS_BUCKET : String := "doodle-world-static"

/-- The HTTP response the handler produces: a successful
`ConversionResponse` body (FastAPI status 200) or a raised `HTTPException`
with a status code and `detail` string. -/
inductive HandlerResult where
  | ok (glb_url message : String)
  | httpError (statusCode : Nat) (detail : String)
deriving DecidableEq

/-- The handler's `except` clauses (app.py:84-95): a `CalledProcessError`
maps to `detail = f"Conversion failed: {e.stderr}"`, every other exception
to `detail = f"An error occurred: {str(e)}"`; both with status 500. -/
def handleExc : PyExc → HandlerResult
  | .calledProcessError _ _ _ stderrText =>
      .httpError 500 ("Conversion failed: " ++ stderrText)
  | .generic m => .httpError 500 ("An error occurred: " ++ m)

/-- Environment of one `/convert` request: the temp-directory allocation
outcome, the fetch outcome, the converter environment, the upload outcome,
and the `datetime.now().strftime('%Y%m%d_%H%M%S')` string. -/
structure ReqEnv where
  mkdtemp : Except String String
  fetch : Except String Unit
  conv : ConvEnv
  upload : Except String Unit
  timestamp : String

/-- Observable collaborator activity of one request: how many times the
converter ran, the destination keys the publisher was invoked with, and
the paths the request created inside the workspace or temp area. -/
structure Trace where
  converterCalls : Nat
  publisherKeys : List String
  writes : List String
deriving DecidableEq

/-- Result of one `/convert` request: the HTTP outcome, the filesystem
after the handler completed (its `finally` included), and the trace. -/
structure EndpointOut where
  response : HandlerResult
  fs : Fs
  trace : Trace

/-- The destination key (app.py:70-71):
`conversions/converted_<timestamp>.glb`. -/
def blobNameFor (timestamp : String) : String :=
  "conversions/" ++ ("converted_" ++ timestamp ++ ".glb")

/-- The `try`-block of the handler after the temp directory exists
(app.py:54-82): fetch, convert, generate the key, upload, build the URL.
Returns the value or the exception, plus the filesystem and trace. -/
def convert_body (env : ReqEnv) (temp_dir : String) (fs : Fs) :
    Except PyExc (String × String) × Fs × Trace :=
  let ply_path := temp_dir ++ "/input.ply"
  let glb_path := temp_dir ++ "/output.glb"
  match download_file env.fetch fs ply_path with
  | (.error e, fs1) => (.error e, fs1, ⟨0, [], []⟩)
  | (.ok _, fs1) =>
    let c := convert_ply_to_glb env.conv fs1 ply_path glb_path
    match c.result with
    | .error e => (.error e, c.fs, ⟨1, [], ply_path :: c.writes⟩)
    | .ok _ =>
      let blob_name := blobNameFor env.timestamp
      match upload_to_gcs env.upload with
      | .error e => (.error e, c.fs, ⟨1, [blob_name], ply_path :: c.writes⟩)
      | .ok _ =>
        let glb_url := get_public_url GCS_BUCKET blob_name
        (.ok (glb_url, "Conversion successful"), c.fs, ⟨1, [blob_name], ply_path :: c.writes⟩)

/-- `convert_ply_to_glb_endpoint` (app.py:33-101).  Allocates the
workspace, runs the body, maps exceptions through the `except` clauses, and
in `finally` recursively deletes the workspace when `temp_dir` is bound and
still exists.  When `mkdtemp` itself raised, `temp_dir` is still `None`
and the `finally` guard skips the cleanup. -/
def convert_ply_to_glb_endpoint (env : ReqEnv) (fs : Fs) : EndpointOut :=
  match env.mkdtemp with
  | .error m =>
      { response := .httpError 500 ("An error occurred: " ++ m),
        fs := fs, trace := ⟨0, [], []⟩ }
  | .ok temp_dir =>
      let fs0 := createFile fs temp_dir
      let b := convert_body env temp_dir fs0
      let fs2 := if temp_dir ∈ b.2.1 then rmtree b.2.1 temp_dir else b.2.1
      { response :=
          match b.1 with
          | .ok (u, m) => .ok u m
          | .error e => handleExc e,
        fs := fs2,
        trace := { b.2.2 with writes := temp_dir :: b.2.2.writes } }

/-- `health_check` (app.py:27-30).  The function reads no request input and
touches no external state; we model the world it could have touched as
passed through unchanged, returning FastAPI's default 200 with the literal
body. -/
def health_check (world : Fs) : (Nat × List (String × String)) × Fs :=
  ((200, [("status", "healthy")]), world)

/-! ## Concrete test environments -/

/-- A fully successful request environment. -/
def okReq : ReqEnv :=
  { mkdtemp := .ok "/tmp/w0",
    fetch := .ok (),
    conv := { write := .ok, pipelineFile := "/tmp/p0.json",
              run := .completed 0 "" "", outputWritten := true },
    upload := .ok (),
    timestamp := "20250101_090000" }

/-- A request whose PDAL subprocess exits with status 2 and stderr `###`. -/
def pdalFailReq : ReqEnv :=
  { mkdtemp := .ok "/tmp/work",
    fetch := .ok (),
    conv := { write := .ok, pipelineFile := "/tmp/pipe.json",
              run := .completed 2 "" "###", outputWritten := false },
    upload := .ok (),
    timestamp := "20250101_000000" }

/-- The detail string the handler produces for `pdalFailReq`. -/
def pdalFailDetail : String :=
  "An error occurred: PDAL conversion failed: Command \x27[\x27pdal\x27, "
    ++ "\x27pipeline\x27, \x27/tmp/pipe.json\x27]\x27 returned non-zero exit status 2."

/-- A converter environment whose subprocess exits 0 but never writes the
output file. -/
def silentToolConv : ConvEnv :=
  { write := .ok, pipelineFile := "/tmp/pipe4.json",
    run := .completed 0 "" "", outputWritten := false }

/-- First of two sequential successful requests sharing a wall-clock second. -/
def sameSecondReq1 : ReqEnv :=
  { mkdtemp := .ok "/tmp/w1",
    fetch := .ok (),
    conv := { write := .ok, pipelineFile := "/tmp/p1.json",
              run := .completed 0 "" "", outputWritten := true },
    upload := .ok (),
    timestamp := "20250101_120000" }

/-- Second of two sequential successful requests sharing a wall-clock second. -/
def sameSecondReq2 : ReqEnv :=
  { mkdtemp := .ok "/tmp/w2",
    fetch := .ok (),
    conv := { write := .ok, pipelineFile := "/tmp/p2.json",
              run := .completed 0 "" "", outputWritten := true },
    upload := .ok (),
    timestamp := "20250101_120000" }

/-- A request whose HTTP fetch fails (e.g. a 404 raised by
`raise_for_status`). -/
def fetchFailReq : ReqEnv :=
  { mkdtemp := .ok "/tmp/w6",
    fetch := .error "404 Client Error: Not Found for url: https://example.com/cloud.ply",
    conv := { write := .ok, pipelineFile := "/tmp/p6.json",
              run := .completed 0 "" "", outputWritten := true },
    upload := .ok (),
    timestamp := "20250101_130000" }

/-- A converter environment whose descriptor write fails before the temp
file was created. -/
def writeFailConv : ConvEnv :=
  { write := .failBefore "No space left on device",
    pipelineFile := "/tmp/p10.json",
    run := .completed 0 "" "", outputWritten := false }

/-! ## Helper lemmas -/

theorem not_mem_deletePath_self (fs : Fs) (p : String) : p ∉ deletePath fs p := by
  simp [deletePath, List.mem_filter]

theorem mem_deletePath_of_ne {fs : Fs} {x p : String} (hx : x ∈ fs) (hne : x ≠ p) :
    x ∈ deletePath fs p := by
  simp [deletePath, List.mem_filter, hx, hne]

theorem not_mem_rmtree_self (fs : Fs) (d : String) : d ∉ rmtree fs d := by
  simp [rmtree, List.mem_filter]

theorem not_mem_rmtree_under (fs : Fs) (d p : String)
    (h : isUnder d p = true) : p ∉ rmtree fs d := by
  simp [rmtree, List.mem_filter, h]

theorem convert_descriptor_eq (env : ConvEnv) (fs : Fs) (i o : String) :
    (convert_ply_to_glb env fs i o).descriptor = pipeline_definition i o := by
  obtain ⟨w, pf, r, ow⟩ := env
  cases w <;> rcases r with ⟨rc, so, se⟩ | m <;> cases ow <;>
    simp [convert_ply_to_glb] <;> split <;> rfl

/-! ## Claims -/

/-- Claim C7: every Converter invocation builds a pipeline descriptor with
exactly three stages in this order — a `readers.ply` read stage (fixed
input format, not sniffed) whose filename is the input path, a
`filters.delaunay` triangulation stage, and a `writers.gltf` write stage
whose filename is the output path. -/
theorem pipeline_has_three_fixed_stages (env : ConvEnv) (fs : Fs) (i o : String) :
    (convert_ply_to_glb env fs i o).descriptor.length = 3 ∧
    (convert_ply_to_glb env fs i o).descriptor =
      [{ type := "readers.ply", filename := some i },
       { type := "filters.delaunay", filename := none },
       { type := "writers.gltf", filename := some o }] := by
  rw [convert_descriptor_eq]
  exact ⟨rfl, rfl⟩

/-- Claim C9: `GET /health` always returns status 200 with the exact body
`{"status": "healthy"}`, reading no request-dependent input and leaving the
outside world untouched. -/
theorem health_check_constant (world : Fs) :
    health_check world = ((200, [("status", "healthy")]), world) := rfl

/-- Claim C3: once the pipeline descriptor file has been written
(`env.write = .ok`), it no longer exists when `convert_ply_to_glb` returns
or raises, on every exit path. -/
theorem descriptor_deleted_on_every_path (env : ConvEnv) (fs : Fs) (i o : String)
    (hw : env.write = .ok) :
    env.pipelineFile ∉ (convert_ply_to_glb env fs i o).fs := by
  obtain ⟨w, pf, r, ow⟩ := env
  cases hw
  rcases r with ⟨rc, so, se⟩ | m <;> cases ow <;>
    simp only [convert_ply_to_glb] <;>
    first
    | exact not_mem_deletePath_self _ _
    | (split <;> exact not_mem_deletePath_self _ _)

/-- Claim C3 witness: a concrete failing conversion (exit status 2) after
which the descriptor file is gone. -/
theorem descriptor_deleted_on_every_path_witness :
    "/tmp/pipe.json" ∉
      (convert_ply_to_glb pdalFailReq.conv [] "/w/input.ply" "/w/output.glb").fs :=
  descriptor_deleted_on_every_path pdalFailReq.conv [] "/w/input.ply" "/w/output.glb" rfl

/-- Claim C4 counterexample: an environment whose subprocess exits 0
without writing the output file makes `convert_ply_to_glb` return success
although the output path does not exist — refuting that success implies
the output file exists. -/
theorem convert_success_without_output :
    (convert_ply_to_glb silentToolConv [] "/w/input.ply" "/w/output.glb").result
      = .ok () ∧
    "/w/output.glb" ∉
      (convert_ply_to_glb silentToolConv [] "/w/input.ply" "/w/output.glb").fs := by
  constructor
  · rfl
  · decide

/-- Claim C4 (amended): the Converter returns successfully exactly when the
descriptor write succeeded and the subprocess exited with status zero; the
existence of the output file is not checked by the code. -/
theorem convert_success_iff_exit_zero (env : ConvEnv) (fs : Fs) (i o : String) :
    (convert_ply_to_glb env fs i o).result = .ok () ↔
    env.write = .ok ∧ ∃ sout serr, env.run = .completed 0 sout serr := by
  obtain ⟨w, pf, r, ow⟩ := env
  cases w <;> rcases r with ⟨rc, so, se⟩ | m <;>
    simp [convert_ply_to_glb]
  all_goals
    by_cases hrc : rc = 0 <;> simp [hrc]

/-- Claim C4 witness (amended direction): a concrete exit-0 run is reported
successful. -/
theorem convert_success_iff_exit_zero_witness :
    (convert_ply_to_glb silentToolConv [] "/a.ply" "/b.glb").result = .ok () :=
  (convert_success_iff_exit_zero silentToolConv [] "/a.ply" "/b.glb").mpr
    ⟨rfl, "", "", rfl⟩

/-- Claim C10: every exception `convert_ply_to_glb` raises is a plain
`Exception` whose message starts with `PDAL conversion failed: ` — never a
`subprocess.CalledProcessError` — so the handler's dedicated
`CalledProcessError` branch is unreachable and every conversion failure is
mapped by the generic branch to a detail prefixed `An error occurred: `
rather than `Conversion failed: `. -/
theorem cpe_branch_unreachable (env : ConvEnv) (fs : Fs) (i o : String) (e : PyExc)
    (h : (convert_ply_to_glb env fs i o).result = .error e) :
    ∃ s, e = .generic ("PDAL conversion failed: " ++ s) ∧
      handleExc e = .httpError 500
        ("An error occurred: " ++ ("PDAL conversion failed: " ++ s)) := by
  obtain ⟨w, pf, r, ow⟩ := env
  cases w with
  | failBefore m =>
    simp [convert_ply_to_glb] at h
    subst h
    exact ⟨m, rfl, rfl⟩
  | failAfterCreate m =>
    simp [convert_ply_to_glb] at h
    subst h
    exact ⟨m, rfl, rfl⟩
  | ok =>
    rcases r with ⟨rc, so, se⟩ | m
    · by_cases hrc : rc = 0
      · simp [convert_ply_to_glb, hrc] at h
      · simp [convert_ply_to_glb, hrc] at h
        subst h
        exact ⟨_, rfl, rfl⟩
    · simp [convert_ply_to_glb] at h
      subst h
      exact ⟨m, rfl, rfl⟩

/-- Claim C10 witness: the exception of a concrete failing conversion is a
plain `Exception` and the handler maps it through the generic branch. -/
theorem cpe_branch_unreachable_witness :
    ∃ s, PyExc.generic ("PDAL conversion failed: " ++ "No space left on device")
        = .generic ("PDAL conversion failed: " ++ s) ∧
      handleExc (.generic ("PDAL conversion failed: " ++ "No space left on device"))
        = .httpError 500
          ("An error occurred: " ++ ("PDAL conversion failed: " ++ s)) :=
  cpe_branch_unreachable writeFailConv [] "/a.ply" "/b.glb"
    (.generic ("PDAL conversion failed: " ++ "No space left on device")) rfl

set_option maxRecDepth 4096 in
/-- Claim C2 counterexample: a request whose PDAL subprocess exits with
status 2 and stderr `###` yields a 500 whose detail does not contain `###`
— refuting that the detail contains the subprocess's stderr verbatim. -/
theorem stderr_absent_from_detail :
    (convert_ply_to_glb_endpoint pdalFailReq []).response =
      .httpError 500 pdalFailDetail ∧
    ¬ ("###".data <:+: pdalFailDetail.data) := by
  constructor
  · decide
  · decide

/-- Claim C2 (amended): when the PDAL subprocess exits non-zero, the 500
detail is `An error occurred: PDAL conversion failed: ` followed by the
`CalledProcessError` text (the command and exit status); the captured
stderr is not included. -/
theorem conversion_failure_detail (env : ReqEnv) (fs : Fs) (d : String)
    (hmk : env.mkdtemp = .ok d) (hf : env.fetch = .ok ())
    (hw : env.conv.write = .ok) (rc : Nat) (sout serr : String)
    (hr : env.conv.run = .completed rc sout serr) (hrc : rc ≠ 0) :
    (convert_ply_to_glb_endpoint env fs).response =
      .httpError 500 ("An error occurred: " ++ ("PDAL conversion failed: "
        ++ calledProcessErrorStr ["pdal", "pipeline", env.conv.pipelineFile] rc)) := by
  simp [convert_ply_to_glb_endpoint, hmk, convert_body, download_file, hf,
    convert_ply_to_glb, hw, hr, hrc, handleExc]

/-- Claim C2 witness (amended): the concrete exit-2 request's detail. -/
theorem conversion_failure_detail_witness :
    (convert_ply_to_glb_endpoint pdalFailReq []).response =
      .httpError 500 ("An error occurred: " ++ ("PDAL conversion failed: "
        ++ calledProcessErrorStr ["pdal", "pipeline", "/tmp/pipe.json"] 2)) :=
  conversion_failure_detail pdalFailReq [] "/tmp/work" rfl rfl rfl 2 "" "###" rfl
    (by decide)

/-- Appending a non-empty string strictly lengthens a string. -/
theorem append_ne_self (d s : String) (hs : s.length ≠ 0) : d ++ s ≠ d := by
  intro hc
  have hlen := congrArg String.length hc
  rw [String.length_append] at hlen
  omega

/-- Claim C6: when the fetch fails (e.g. a non-success HTTP status raised
by `raise_for_status`), the endpoint returns a 500, the converter and
publisher are never invoked, and no input file is written into the
workspace. -/
theorem fetch_failure_no_side_effects (env : ReqEnv) (fs : Fs) (d m : String)
    (hmk : env.mkdtemp = .ok d) (hf : env.fetch = .error m) :
    (convert_ply_to_glb_endpoint env fs).response =
      .httpError 500 ("An error occurred: " ++ m) ∧
    (convert_ply_to_glb_endpoint env fs).trace.converterCalls = 0 ∧
    (convert_ply_to_glb_endpoint env fs).trace.publisherKeys = [] ∧
    (d ++ "/input.ply") ∉ (convert_ply_to_glb_endpoint env fs).trace.writes := by
  simp [convert_ply_to_glb_endpoint, hmk, convert_body, download_file, hf, handleExc]
  exact append_ne_self d "/input.ply" (by decide)

/-- Claim C6 witness: a concrete 404 fetch. -/
theorem fetch_failure_no_side_effects_witness :
    (convert_ply_to_glb_endpoint fetchFailReq []).response =
      .httpError 500 ("An error occurred: "
        ++ "404 Client Error: Not Found for url: https://example.com/cloud.ply") ∧
    (convert_ply_to_glb_endpoint fetchFailReq []).trace.converterCalls = 0 ∧
    (convert_ply_to_glb_endpoint fetchFailReq []).trace.publisherKeys = [] ∧
    ("/tmp/w6" ++ "/input.ply") ∉ (convert_ply_to_glb_endpoint fetchFailReq []).trace.writes :=
  fetch_failure_no_side_effects fetchFailReq [] "/tmp/w6"
    "404 Client Error: Not Found for url: https://example.com/cloud.ply" rfl rfl

/-- A path other than the descriptor file survives a Converter call. -/
theorem mem_convert_fs (env : ConvEnv) (fs : Fs) (i o x : String)
    (hx : x ∈ fs) (hne : x ≠ env.pipelineFile) :
    x ∈ (convert_ply_to_glb env fs i o).fs := by
  obtain ⟨w, pf, r, ow⟩ := env
  replace hne : x ≠ pf := hne
  cases w with
  | failBefore m => simpa [convert_ply_to_glb] using hx
  | failAfterCreate m =>
    simp [convert_ply_to_glb, createFile]
    exact Or.inr hx
  | ok =>
    rcases r with ⟨rc, so, se⟩ | m
    · cases ow <;> unfold convert_ply_to_glb <;> dsimp only <;> split <;>
        exact mem_deletePath_of_ne (by simp [createFile, hx]) hne
    · unfold convert_ply_to_glb
      exact mem_deletePath_of_ne (by simp [createFile, hx]) hne

/-- The workspace directory survives the handler body (given the
descriptor temp file is a distinct path). -/
theorem mem_body_fs (env : ReqEnv) (d : String) (fs : Fs)
    (hx : d ∈ fs) (hne : d ≠ env.conv.pipelineFile) :
    d ∈ (convert_body env d fs).2.1 := by
  cases hf : env.fetch with
  | error m => simpa [convert_body, download_file, hf] using hx
  | ok u =>
    simp only [convert_body, download_file, hf]
    have hc : d ∈ (convert_ply_to_glb env.conv (createFile fs (d ++ "/input.ply"))
        (d ++ "/input.ply") (d ++ "/output.glb")).fs :=
      mem_convert_fs _ _ _ _ _ (by simp [createFile, hx]) hne
    rcases hres : (convert_ply_to_glb env.conv (createFile fs (d ++ "/input.ply"))
        (d ++ "/input.ply") (d ++ "/output.glb")).result with e | v
    · simpa [hres] using hc
    · cases hu : upload_to_gcs env.upload <;> simpa [hres, hu] using hc

/-- Claim C1: whenever the temporary workspace directory was successfully
created, it is recursively deleted before the handler returns or raises, on
every exit path — neither the directory nor anything under it exists
afterwards.  (The descriptor temp file lives outside the workspace, which
the hypothesis `hfresh` records.) -/
theorem workspace_deleted_on_every_path (env : ReqEnv) (fs : Fs) (d : String)
    (hmk : env.mkdtemp = .ok d) (hfresh : env.conv.pipelineFile ≠ d) :
    d ∉ (convert_ply_to_glb_endpoint env fs).fs ∧
    ∀ p, isUnder d p = true →
      p ∉ (convert_ply_to_glb_endpoint env fs).fs := by
  have hmem : d ∈ (convert_body env d (createFile fs d)).2.1 :=
    mem_body_fs env d (createFile fs d) (by simp [createFile]) (Ne.symm hfresh)
  have hfs : (convert_ply_to_glb_endpoint env fs).fs =
      rmtree (convert_body env d (createFile fs d)).2.1 d := by
    simp [convert_ply_to_glb_endpoint, hmk, hmem]
  rw [hfs]
  exact ⟨not_mem_rmtree_self _ _, fun p hp => not_mem_rmtree_under _ _ p hp⟩

/-- Claim C1 witness: a concrete successful request, after which neither
the workspace nor the input file inside it exists. -/
theorem workspace_deleted_on_every_path_witness :
    "/tmp/w0" ∉ (convert_ply_to_glb_endpoint okReq []).fs ∧
    "/tmp/w0" ++ "/input.ply" ∉ (convert_ply_to_glb_endpoint okReq []).fs :=
  ⟨(workspace_deleted_on_every_path okReq [] "/tmp/w0" rfl (by decide)).1,
   (workspace_deleted_on_every_path okReq [] "/tmp/w0" rfl (by decide)).2
     ("/tmp/w0" ++ "/input.ply") (by decide)⟩

/-- The destination-key template is injective in the timestamp. -/
theorem blobNameFor_inj (t1 t2 : String) (h : blobNameFor t1 = blobNameFor t2) :
    t1 = t2 := by
  have hd : (blobNameFor t1).data = (blobNameFor t2).data := by rw [h]
  have h1 : (blobNameFor t1).data
      = "conversions/converted_".data ++ (t1.data ++ ".glb".data) := rfl
  have h2 : (blobNameFor t2).data
      = "conversions/converted_".data ++ (t2.data ++ ".glb".data) := rfl
  rw [h1, h2] at hd
  exact String.ext (List.append_cancel_right (List.append_cancel_left hd))

/-- Each request invokes the publisher with no key at all or with exactly
the timestamp-derived key. -/
theorem publisherKeys_shape (env : ReqEnv) (fs : Fs) :
    (convert_ply_to_glb_endpoint env fs).trace.publisherKeys = [] ∨
    (convert_ply_to_glb_endpoint env fs).trace.publisherKeys
      = [blobNameFor env.timestamp] := by
  cases hmk : env.mkdtemp with
  | error m => exact Or.inl (by simp [convert_ply_to_glb_endpoint, hmk])
  | ok d =>
    cases hf : env.fetch with
    | error m =>
      exact Or.inl (by simp [convert_ply_to_glb_endpoint, hmk, convert_body,
        download_file, hf])
    | ok u =>
      simp only [convert_ply_to_glb_endpoint, hmk, convert_body, download_file, hf]
      rcases hres : (convert_ply_to_glb env.conv
          (createFile (createFile fs d) (d ++ "/input.ply"))
          (d ++ "/input.ply") (d ++ "/output.glb")).result with e | v
      · exact Or.inl (by simp [hres])
      · cases hu : upload_to_gcs env.upload with
        | error e => exact Or.inr (by simp [hres, hu])
        | ok u2 => exact Or.inr (by simp [hres, hu])

set_option maxRecDepth 16384 in
/-- Claim C5 counterexample: two sequential successful requests whose key
generation falls in the same wall-clock second (with distinct workspaces
and distinct descriptor files) upload to the same object key — refuting
that sequential requests never upload to the same key. -/
theorem same_second_key_collision :
    (convert_ply_to_glb_endpoint sameSecondReq1 []).response =
      .ok ("https://storage.googleapis.com/doodle-world-static/"
        ++ "conversions/converted_20250101_120000.glb") "Conversion successful" ∧
    (convert_ply_to_glb_endpoint sameSecondReq2
        (convert_ply_to_glb_endpoint sameSecondReq1 []).fs).response =
      .ok ("https://storage.googleapis.com/doodle-world-static/"
        ++ "conversions/converted_20250101_120000.glb") "Conversion successful" ∧
    (convert_ply_to_glb_endpoint sameSecondReq1 []).trace.publisherKeys =
      ["conversions/converted_20250101_120000.glb"] ∧
    (convert_ply_to_glb_endpoint sameSecondReq2
        (convert_ply_to_glb_endpoint sameSecondReq1 []).fs).trace.publisherKeys =
      ["conversions/converted_20250101_120000.glb"] := by
  refine ⟨?_, ?_, ?_, ?_⟩ <;> decide

/-- Claim C5 (amended): the destination key is determined by the request's
second-granularity timestamp alone, so two sequential requests whose
timestamps differ never upload to the same object key; requests whose key
generation falls within the same second collide, and workspace-path
uniqueness is delegated to `mkdtemp`. -/
theorem distinct_timestamps_distinct_keys (env1 env2 : ReqEnv) (fs : Fs)
    (hts : env1.timestamp ≠ env2.timestamp) :
    ∀ k, k ∈ (convert_ply_to_glb_endpoint env1 fs).trace.publisherKeys →
      k ∉ (convert_ply_to_glb_endpoint env2
        (convert_ply_to_glb_endpoint env1 fs).fs).trace.publisherKeys := by
  intro k hk1 hk2
  rcases publisherKeys_shape env1 fs with h1 | h1 <;> rw [h1] at hk1
  · simp at hk1
  · rcases publisherKeys_shape env2 (convert_ply_to_glb_endpoint env1 fs).fs
        with h2 | h2 <;> rw [h2] at hk2
    · simp at hk2
    · simp only [List.mem_singleton] at hk1 hk2
      exact hts (blobNameFor_inj _ _ (hk1.symm.trans hk2))

set_option maxRecDepth 16384 in
/-- Claim C5 witness (amended): a request in a later second does not reuse
the earlier request's key. -/
theorem distinct_timestamps_distinct_keys_witness :
    "conversions/converted_20250101_120000.glb" ∉
      (convert_ply_to_glb_endpoint fetchFailReq
        (convert_ply_to_glb_endpoint sameSecondReq1 []).fs).trace.publisherKeys :=
  distinct_timestamps_distinct_keys sameSecondReq1 fetchFailReq [] (by decide)
    "conversions/converted_20250101_120000.glb" (by decide)

/-- The handler's exception mapping never yields a success response. -/
theorem handleExc_ne_ok (e : PyExc) (u m : String) : handleExc e ≠ .ok u m := by
  cases e <;> simp [handleExc]

/-- The composed public URL flattens to the fixed template. -/
theorem url_flatten (ts : String) :
    get_public_url GCS_BUCKET (blobNameFor ts) =
      "https://storage.googleapis.com/doodle-world-static/conversions/converted_"
        ++ ts ++ ".glb" := rfl

/-- A successful response carries exactly the computed public URL and the
fixed message. -/
theorem response_ok_imp (env : ReqEnv) (fs : Fs) (u m : String)
    (hok : (convert_ply_to_glb_endpoint env fs).response = .ok u m) :
    u = get_public_url GCS_BUCKET (blobNameFor env.timestamp) ∧
    m = "Conversion successful" := by
  cases hmk : env.mkdtemp with
  | error msg => simp [convert_ply_to_glb_endpoint, hmk] at hok
  | ok d =>
    cases hf : env.fetch with
    | error msg =>
      simp [convert_ply_to_glb_endpoint, hmk, convert_body, download_file, hf,
        handleExc] at hok
    | ok uu =>
      simp only [convert_ply_to_glb_endpoint, hmk, convert_body, download_file,
        hf] at hok
      rcases hres : (convert_ply_to_glb env.conv
          (createFile (createFile fs d) (d ++ "/input.ply"))
          (d ++ "/input.ply") (d ++ "/output.glb")).result with e | v
      · rw [hres] at hok
        exact absurd hok (handleExc_ne_ok e u m)
      · cases hu : upload_to_gcs env.upload with
        | error e =>
          simp only [hres, hu] at hok
          exact absurd hok (handleExc_ne_ok e u m)
        | ok uu2 =>
          simp only [hres, hu, HandlerResult.ok.injEq] at hok
          exact ⟨hok.1.symm, hok.2.symm⟩

/-- Claim C8: `get_public_url` is a pure, total function of bucket and blob
name following the fixed template (so URL computation never fails), and
every successful response's `glb_url` equals
`https://storage.googleapis.com/doodle-world-static/conversions/converted_<timestamp>.glb`
for the hard-coded bucket and the generated key. -/
theorem public_url_deterministic (env : ReqEnv) (fs : Fs) (u m : String)
    (hok : (convert_ply_to_glb_endpoint env fs).response = .ok u m) :
    (∀ bucket blob, get_public_url bucket blob
        = "https://storage.googleapis.com/" ++ bucket ++ "/" ++ blob) ∧
    u = "https://storage.googleapis.com/doodle-world-static/conversions/converted_"
        ++ env.timestamp ++ ".glb" ∧
    m = "Conversion successful" := by
  obtain ⟨h1, h2⟩ := response_ok_imp env fs u m hok
  exact ⟨fun bucket blob => rfl, h1.trans (url_flatten env.timestamp), h2⟩

set_option maxRecDepth 16384 in
/-- Claim C8 witness: the concrete successful request's URL. -/
theorem public_url_deterministic_witness :
    (∀ bucket blob, get_public_url bucket blob
        = "https://storage.googleapis.com/" ++ bucket ++ "/" ++ blob) ∧
    ("https://storage.googleapis.com/doodle-world-static/"
        ++ "conversions/converted_20250101_090000.glb")
      = "https://storage.googleapis.com/doodle-world-static/conversions/converted_"
        ++ "20250101_090000" ++ ".glb" ∧
    "Conversion successful" = "Conversion successful" :=
  public_url_deterministic okReq []
    ("https://storage.googleapis.com/doodle-world-static/"
      ++ "conversions/converted_20250101_090000.glb")
    "Conversion successful" (by decide)

end SplatToMesh
